import Mathlib

/-!
Verification development for the VCTbot repository (`main.py`).

The file gives a shallow embedding of the bot's core pure logic:

* the name resolver (`resolve_team_name`),
* the candidate locator and field extractor of `get_valorant_results`,
* the multi-dimensional results cache with its failure counter,
* the reminder store and the due-window test of `reminder_check_task`,
* the display formatter `format_match_time`.

External collaborators (the HTTP client, BeautifulSoup's CSS-selector
queries, the fuzzywuzzy scorer, Discord delivery, SQLite) are modelled as
data supplied to the embedded functions: a `Block` carries the results the
selector queries would return on that DOM node, a `Document` carries the
results of the three soup-level queries the locator issues, the fuzzy
scorer is a function parameter, and the SQLite tables are explicit lists.
Machine time is modelled as integer seconds.
-/

/-- Infix test on character lists: some tail of `hay` starts with `needle`. -/
def charsInfix (needle hay : List Char) : Bool :=
  hay.tails.any (fun t => needle.isPrefixOf t)

/-- Python `needle in hay` substring containment, at character level. -/
def strContains (hay needle : String) : Bool :=
  charsInfix needle.data hay.data

/-- Python `s.count(c)` for a single-character pattern. -/
def countChar (s : String) (c : Char) : Nat :=
  (s.data.filter (fun x => x = c)).length

/-- Python `str.lower`, modelled on the character list (`Char.toLower`;
faithful on the ASCII inputs the claims exercise). -/
def pyLower (s : String) : String := ⟨s.data.map Char.toLower⟩

/-- Python `str.isdigit`: nonempty and every character a digit. -/
def pyIsdigit (s : String) : Bool :=
  !s.data.isEmpty && s.data.all (fun c => c.isDigit)

/-- Splitting a character list on a separator character (every separator the
source splits on is a single character). -/
def splitOnChar (sep : Char) : List Char → List (List Char)
  | [] => [[]]
  | c :: rest =>
    let r := splitOnChar sep rest
    if c = sep then [] :: r
    else
      match r with
      | [] => [[c]]
      | l :: ls => (c :: l) :: ls

/-- Python `s.split(sep)` for a single-character separator. -/
def pySplitOn (s : String) (sep : Char) : List String :=
  (splitOnChar sep s.data).map (fun l => ⟨l⟩)

/-- Python `s.split(sep, 1)`: split at the first occurrence only. -/
def splitOnceChar (s : String) (sep : Char) : List String :=
  match splitOnChar sep s.data with
  | [] => [s]
  | [a] => [⟨a⟩]
  | a :: rest => [⟨a⟩, ⟨List.intercalate [sep] rest⟩]

/-- Python `s.startswith(prefix)`, at character level. -/
def strStartsWith (hay needle : String) : Bool :=
  needle.data.isPrefixOf hay.data

/-- Python `s.endswith(suffix)`, at character level. -/
def strEndsWith (hay needle : String) : Bool :=
  needle.data.reverse.isPrefixOf hay.data.reverse

/-- Python `s.strip()`: whitespace removed from both ends. -/
def pyStrip (s : String) : String :=
  ⟨((s.data.dropWhile Char.isWhitespace).reverse.dropWhile Char.isWhitespace).reverse⟩

/-- Lookup in an insertion-ordered dictionary modelled as an association list. -/
def assocFind {α : Type} (m : List (String × α)) (k : String) : Option α :=
  (m.find? (fun p => p.1 = k)).map (fun p => p.2)

/-- Python `d[k] = v` on a dictionary modelled as an association list. -/
def assocSet {α : Type} : List (String × α) → String → α → List (String × α)
  | [], k, v => [(k, v)]
  | (k', v') :: rest, k, v =>
    if k' = k then (k, v) :: rest else (k', v') :: assocSet rest k v

/-- TEAM_ALIASES from `main.py`: alias (lowercase) to canonical team key. -/
def TEAM_ALIASES : List (String × String) :=
  [("c9", "cloud9"), ("100t", "100 thieves"), ("sen", "sentinels"),
   ("eg", "evil geniuses"), ("tl", "liquid"), ("fnc", "fnatic"),
   ("prx", "paper rex"), ("geng", "gen.g"), ("leviatan", "leviatán"),
   ("levi", "leviatán"), ("krü", "kru"), ("krue", "kru")]

/-- Keys of TEAM_COLORS from `main.py`, in dictionary insertion order. -/
def TEAM_COLORS_KEYS : List String :=
  ["sentinels", "cloud9", "fnatic", "liquid", "100 thieves", "nrg",
   "evil geniuses", "g2", "faze", "drx", "paper rex", "t1", "gen.g",
   "loud", "leviatán", "kru"]

/-- TOURNAMENT_ALIASES from `main.py`. -/
def TOURNAMENT_ALIASES : List (String × String) :=
  [("vct", "vct"), ("masters", "masters"), ("champs", "champions"),
   ("gc", "game changers"), ("gamechangers", "game changers"),
   ("challengers", "challengers"), ("chal", "challengers"),
   ("asc", "ascension")]

/-- Keys of TOURNAMENT_COLORS from `main.py`, in dictionary insertion order. -/
def TOURNAMENT_COLORS_KEYS : List String :=
  ["vct", "masters", "champions", "ascension", "game changers", "challengers"]

/-- Python `max(..., key=f)` over a list of strings: the first element
attaining the maximal key.  The scorer given to `extractOne` below
(fuzzywuzzy's WRatio composed with its preprocessing) is an external library
function, passed in as a parameter. -/
def pyMaxBy (f : String → Nat) (l : List String) : Option String :=
  l.foldl (fun acc c =>
    match acc with
    | none => some c
    | some b => if f b < f c then some c else acc) none

/-- Model of `fuzzywuzzy.process.extractOne(query, choices, score_cutoff)`:
the first choice attaining the maximal score, provided it reaches the
cutoff. -/
def extractOne (score : String → String → Nat) (query : String)
    (choices : List String) (cutoff : Nat) : Option String :=
  match pyMaxBy (fun c => score query c) choices with
  | some b => if cutoff ≤ score query b then some b else none
  | none => none

/-- Embedding of `resolve_team_name` (`main.py` lines 226-250): alias table,
then exact-or-substring match over the `TEAM_COLORS` keys, then fuzzy match
with cutoff 80, else the input unchanged.  The empty string is Python-falsy
and is returned unchanged up front. -/
def resolve_team_name (score : String → String → Nat) (team_input : String) : String :=
  if team_input = "" then team_input
  else
    let team_lower := pyLower team_input
    match assocFind TEAM_ALIASES team_lower with
    | some canonical => canonical
    | none =>
      match TEAM_COLORS_KEYS.find? (fun team => team_lower = team || strContains team team_lower) with
      | some team => team
      | none =>
        match extractOne score team_lower TEAM_COLORS_KEYS 80 with
        | some best => best
        | none => team_input

/-- Embedding of `resolve_tournament_name` (`main.py` lines 253-277). -/
def resolve_tournament_name (score : String → String → Nat) (tournament_input : String) : String :=
  if tournament_input = "" then tournament_input
  else
    let tournament_lower := pyLower tournament_input
    match assocFind TOURNAMENT_ALIASES tournament_lower with
    | some canonical => canonical
    | none =>
      match TOURNAMENT_COLORS_KEYS.find? (fun t => tournament_lower = t || strContains t tournament_lower) with
      | some t => t
      | none =>
        match extractOne score tournament_lower TOURNAMENT_COLORS_KEYS 80 with
        | some best => best
        | none => tournament_input

/-- A DOM node hypothesized to be one match block.  The `teamEls`, `scoreEls`,
`eventEl`, `timeEl` fields carry the texts that the BeautifulSoup selector
queries issued by `get_valorant_results` would return on this node (`select`
over team-name, score, event and time classes); `texts` is the node's
`stripped_strings`; `href` the `href` attribute; `isTag`/`name`/`text` the
node shape seen by the locator's sibling walk.  `raises` marks a node on
which the external parse library throws while the block is processed (the
per-block `try` of lines 400-511). -/
structure Block where
  isTag : Bool := true
  name : String := "a"
  text : String := ""
  href : Option String := none
  teamEls : List String := []
  scoreEls : List String := []
  eventEl : Option String := none
  timeEl : Option String := none
  texts : List String := []
  raises : Bool := false
deriving Repr, DecidableEq

/-- One extracted match row, the `result` dict of `main.py` lines 498-507. -/
structure MatchRecord where
  team1 : String
  team2 : String
  score1 : String
  score2 : String
  event : String
  stage : String
  time : String
  url : String
deriving Repr, DecidableEq

/-- Mutable locals of the extraction loop (`main.py` lines 407-413). -/
structure ExtractState where
  team1 : String
  team2 : String
  score1 : String
  score2 : String
  event_name : String
  event_stage : String
  match_time : String
deriving Repr, DecidableEq

/-- Initial values of the extraction locals (`main.py` lines 407-413). -/
def initExtractState : ExtractState :=
  { team1 := "Unknown", team2 := "Unknown", score1 := "?", score2 := "?",
    event_name := "Unknown Event", event_stage := "", match_time := "TBD" }

/-- Python `x or "?"` on a string: the empty string is falsy. -/
def orQuestion (x : String) : String := if x = "" then "?" else x

/-- Event-text splitting shared by the selector pass (lines 430-436) and the
fallback pass (lines 481-487), acting on the `(event_stage, event_name)`
pair those regions mutate: split once on en-dash, else hyphen, into stage
and name.  The two passes differ in whether the separator-free branch strips
the text (`stripBare`). -/
def setEventPair (stripBare : Bool) (event_text : String) (p : String × String) : String × String :=
  if strContains event_text "–" || strContains event_text "-" then
    let sep := if strContains event_text "–" then '–' else '-'
    let event_parts := splitOnceChar event_text sep
    (pyStrip (event_parts.getD 0 ""),
     if event_parts.length > 1 then pyStrip (event_parts.getD 1 "")
     else pyStrip (event_parts.getD 0 ""))
  else
    (p.1, if stripBare then pyStrip event_text else event_text)

/-- Pass 1, structured selector lookups (`main.py` lines 416-441). -/
def applySelectors (upcoming : Bool) (b : Block) (st : ExtractState) : ExtractState :=
  let st := if b.teamEls.length ≥ 2 then
      { st with team1 := b.teamEls.getD 0 "", team2 := b.teamEls.getD 1 "" }
    else st
  let st := if b.scoreEls.length ≥ 2 then
      { st with score1 := orQuestion (b.scoreEls.getD 0 ""),
                score2 := orQuestion (b.scoreEls.getD 1 "") }
    else st
  let st := match b.eventEl with
    | some event_text =>
      let p := setEventPair false event_text (st.event_stage, st.event_name)
      { st with event_stage := p.1, event_name := p.2 }
    | none => st
  if upcoming then
    match b.timeEl with
    | some t => { st with match_time := t }
    | none => st
  else st

/-- Token accepted as a score: all digits, or the literal `"?"`. -/
def dqToken (t : String) : Bool := pyIsdigit t || t = "?"

/-- Token accepted as a team name in the positional scan (line 457). -/
def qualTeamToken (t : String) : Bool :=
  decide (t.length > 2) && !pyIsdigit t && !strContains t ":"

/-- The clock-time shape test on the first token (line 449): exactly one
colon and at most one space. -/
def timePatternHead (texts : List String) : Bool :=
  decide (countChar (texts.getD 0 "") ':' = 1) &&
    decide (countChar (texts.getD 0 "") ' ' ≤ 1)

/-- The scan of lines 456-457: the first index among the first four tokens
holding a team-like token. -/
def fbTeamScan (texts : List String) : Option Nat :=
  (List.range (min 4 texts.length)).find? (fun i => qualTeamToken (texts.getD i ""))

/-- The four team/score locals that the positional fallback of lines 446-465
mutates. -/
structure TeamScores where
  team1 : String
  score1 : String
  team2 : String
  score2 : String
deriving Repr, DecidableEq

/-- The body of the positional fallback (lines 447-465), on the four locals
it mutates. -/
def teamFallbackQuad (texts : List String) (q : TeamScores) : TeamScores :=
  if texts.length ≥ 6 then
    if timePatternHead texts then
      { team1 := texts.getD 1 "",
        score1 := if dqToken (texts.getD 2 "") then texts.getD 2 "" else q.score1,
        team2 := texts.getD 3 "",
        score2 := if dqToken (texts.getD 4 "") then texts.getD 4 "" else q.score2 }
    else if texts.length ≥ 10 ∧ (texts.take 5).any pyIsdigit then
      match fbTeamScan texts with
      | some i =>
        { team1 := texts.getD i "",
          score1 := if i + 1 < texts.length ∧ dqToken (texts.getD (i+1) "") = true
                    then texts.getD (i+1) "" else q.score1,
          team2 := if i + 2 < texts.length ∧ (texts.getD (i+2) "").length > 2
                      ∧ pyIsdigit (texts.getD (i+2) "") = false
                   then texts.getD (i+2) "" else q.team2,
          score2 := if i + 3 < texts.length ∧ dqToken (texts.getD (i+3) "") = true
                    then texts.getD (i+3) "" else q.score2 }
      | none => q
    else q
  else q

/-- Pass 2, positional fallback for teams and scores (`main.py` lines
446-465), guarded by at least one team still unresolved. -/
def applyTeamFallback (texts : List String) (st : ExtractState) : ExtractState :=
  if st.team1 = "Unknown" || st.team2 = "Unknown" then
    let q := teamFallbackQuad texts
      { team1 := st.team1, score1 := st.score1, team2 := st.team2, score2 := st.score2 }
    { st with team1 := q.team1, score1 := q.score1, team2 := q.team2, score2 := q.score2 }
  else st

/-- Status keywords the event fallback scans for (line 469). -/
def statusKeywords : List String := ["Completed", "Live", "Upcoming", "Scheduled"]

/-- One iteration of the keyword loop of the event fallback (lines 470-488),
on the `(event_stage, event_name)` pair it mutates: find the first text
containing the keyword, then assign stage/name from the first qualifying
token among the next four. -/
def eventKeywordStep (texts : List String) (p : String × String) (kw : String) : String × String :=
  match (List.range texts.length).find? (fun i => strContains (texts.getD i "") kw) with
  | some ki =>
    if ki + 2 < texts.length then
      match (List.range' (ki+1) (min (ki+5) texts.length - (ki+1))).find? (fun j =>
          let t := texts.getD j ""
          decide (t.length > 3) && !pyIsdigit t && !strContains t ":") with
      | some j => setEventPair true (texts.getD j "") p
      | none => p
    else p
  | none => p

/-- Pass 2 for the event field (`main.py` lines 468-488).  The keyword loop
has no outer break: every status keyword is tried and a later keyword's
assignment overwrites an earlier one. -/
def applyEventFallback (texts : List String) (st : ExtractState) : ExtractState :=
  if st.event_name = "Unknown Event" then
    let p := statusKeywords.foldl (eventKeywordStep texts) (st.event_stage, st.event_name)
    { st with event_stage := p.1, event_name := p.2 }
  else st

/-- Pass 2 for the match time of upcoming matches (`main.py` lines 491-495). -/
def applyTimeFallback (upcoming : Bool) (texts : List String) (st : ExtractState) : ExtractState :=
  if upcoming && st.match_time = "TBD" && decide (texts.length > 0) then
    match (texts.take 3).find? (fun t => strContains t ":" && decide (countChar t ' ' ≤ 1)) with
    | some t => { st with match_time := t }
    | none => st
  else st

/-- Field extraction for one block (`main.py` lines 402-507): selector pass,
then the positional, event and time fallbacks, then the `result` dict.  A
total function: extraction never raises. -/
def extractBlock (upcoming : Bool) (b : Block) : MatchRecord :=
  let st := applySelectors upcoming b initExtractState
  let st := applyTeamFallback b.texts st
  let st := applyEventFallback b.texts st
  let st := applyTimeFallback upcoming b.texts st
  { team1 := st.team1, team2 := st.team2, score1 := st.score1, score2 := st.score2,
    event := st.event_name, stage := st.event_stage,
    time := if upcoming then st.match_time else "",
    url := "https://www.vlr.gg" ++ (b.href.getD "") }

/-- The per-block loop of lines 400-511: each block is processed inside its
own `try`; a block on which the parse library raises is logged and skipped,
the rest of the batch continues. -/
def processBlocks (upcoming : Bool) (blocks : List Block) : List MatchRecord :=
  blocks.foldl (fun acc b => if b.raises then acc else acc ++ [extractBlock upcoming b]) []
/-- A `div` found by the locator's date-header query, with its chain of
following siblings (`next_sibling` walk). -/
structure DateHeader where
  text : String
  siblings : List Block
deriving Repr, DecidableEq

/-- The parsed document, as seen through the three soup-level queries the
locator issues: `matchCards` is `soup.select('a.match-item, a.wf-module-item')`,
`divs` lists every `div` tag with its text and following-sibling chain, and
`allLinks` is `soup.find_all('a')`. -/
structure Document where
  matchCards : List Block := []
  divs : List DateHeader := []
  allLinks : List Block := []
deriving Repr, DecidableEq

/-- Date-header recognition used both by the `find_all` lambda (lines
365-368) and by the sibling walk's stopping test (lines 375-378). -/
def isDateHeaderText (t : String) : Bool :=
  strEndsWith (pyStrip t) "Today" || strEndsWith (pyStrip t) "Yesterday" ||
    strContains (pyLower (pyStrip t)) "ago"

/-- Sibling walk of strategy 2 (lines 373-383): collect link tags with a
root-relative `href`, stopping at the next date-header-looking tag or at the
end of the sibling chain. -/
def walkSiblings : List Block → List Block
  | [] => []
  | s :: rest =>
    if s.isTag && isDateHeaderText s.text then []
    else if s.isTag && s.name = "a" && strStartsWith (s.href.getD "") "/" then
      s :: walkSiblings rest
    else walkSiblings rest

/-- Strategy 2 of the locator (lines 363-383): the first three date headers,
each walked for sibling links. -/
def strategyDateHeaders (d : Document) : List Block :=
  ((d.divs.filter (fun h => isDateHeaderText h.text)).take 3).foldl
    (fun acc h => acc ++ walkSiblings h.siblings) []

/-- The URL-pattern test of strategy 3 (lines 389-391): a root-relative href
whose second `/`-segment has an all-digit `-`-segment. -/
def hrefHasDigitSegment (href : String) : Bool :=
  strStartsWith href "/" && decide ((pySplitOn href '/').length > 1) &&
    (pySplitOn ((pySplitOn href '/').getD 1 "") '-').any pyIsdigit

/-- Strategy 3 of the locator (lines 386-391). -/
def strategyLinkScan (d : Document) : List Block :=
  d.allLinks.filter (fun l => hrefHasDigitSegment (l.href.getD ""))

/-- The cascading candidate locator (lines 355-391): class selectors, then
the date-header walk, then the link scan; each later strategy runs only if
every earlier one produced no elements. -/
def locate (d : Document) : List Block :=
  if !d.matchCards.isEmpty then d.matchCards
  else if !(strategyDateHeaders d).isEmpty then strategyDateHeaders d
  else strategyLinkScan d

/-- The process-wide `results_cache` dict of `main.py` lines 63-71.
Timestamps are integer seconds. -/
structure ResultsCache where
  recent_data : Option (List MatchRecord)
  upcoming_data : Option (List MatchRecord)
  team_data : List (String × List MatchRecord)
  tournament_data : List (String × List MatchRecord)
  timestamp : Option Int
  scraping_failures : Nat
  last_success : Option Int
deriving Repr, DecidableEq

/-- The cache's initial value at process start. -/
def initialCache : ResultsCache :=
  { recent_data := none, upcoming_data := none, team_data := [],
    tournament_data := [], timestamp := none, scraping_failures := 0,
    last_success := none }

/-- Python truthiness of an optional string argument (`if tournament:`):
absent or empty is falsy. -/
def truthy : Option String → Bool
  | none => false
  | some s => s != ""

/-- The TTL test of line 316: a timestamp exists and is younger than 300
seconds. -/
def cacheFresh (c : ResultsCache) (now : Int) : Bool :=
  match c.timestamp with
  | some ts => decide (now - ts < 300)
  | none => false

/-- The cache-consultation block of `get_valorant_results` (lines 314-335):
within the TTL, a tournament query reads only the tournament sub-cache, else
a team query reads only the team sub-cache, else the general slot for the
requested direction; a missing entry (or stale timestamp) falls through to a
fetch (`none`). -/
def cacheLookup (limit : Nat) (upcoming : Bool) (team tournament : Option String)
    (now : Int) (c : ResultsCache) : Option (List MatchRecord) :=
  if cacheFresh c now then
    if truthy tournament then
      (assocFind c.tournament_data (pyLower (tournament.getD ""))).map (fun l => l.take limit)
    else if truthy team then
      (assocFind c.team_data (pyLower (team.getD ""))).map (fun l => l.take limit)
    else if upcoming then
      c.upcoming_data.map (fun l => l.take limit)
    else
      c.recent_data.map (fun l => l.take limit)
  else none

/-- The tournament filter of lines 514-525: keep records whose lowercased
event name contains the lowercased tournament key. -/
def tournamentFilter (key : String) (rs : List MatchRecord) : List MatchRecord :=
  rs.filter (fun r => strContains (pyLower r.event) key)

/-- The team filter of lines 527-539: keep records with the lowercased team
key contained in either lowercased team name. -/
def teamFilter (key : String) (rs : List MatchRecord) : List MatchRecord :=
  rs.filter (fun r => strContains (pyLower r.team1) key || strContains (pyLower r.team2) key)

/-- One fetch cycle of `get_valorant_results` (lines 337-574), entered when
the cache did not answer.  `fetched = none` stands for any of the caught
transport or unexpected exceptions (lines 553-574): the failure counter is
incremented and the call answers `none`.  On a fetched document the locator
runs; no candidate elements means an immediate `some []` with the cache
untouched (lines 393-395); otherwise the first `limit` blocks are extracted,
the requested filter is applied and stored in its own sub-cache slot (lines
513-539), the general slot is written (lines 541-545: the upcoming slot
unconditionally for upcoming queries, the recent slot only for unfiltered
ones), and the shared timestamp, failure counter and last-success marker are
updated (lines 547-549). -/
def fetchCycle (limit : Nat) (upcoming : Bool) (team tournament : Option String)
    (fetched : Option Document) (now : Int) (c : ResultsCache) :
    Option (List MatchRecord) × ResultsCache :=
  match fetched with
  | none => (none, { c with scraping_failures := c.scraping_failures + 1 })
  | some doc =>
    let match_elements := locate doc
    if match_elements.isEmpty then
      (some [], c)
    else
      let results := processBlocks upcoming (match_elements.take limit)
      let step :=
        if truthy tournament then
          let key := pyLower (tournament.getD "")
          let tr := tournamentFilter key results
          (tr, { c with tournament_data := assocSet c.tournament_data key tr })
        else if truthy team then
          let key := pyLower (team.getD "")
          let tr := teamFilter key results
          (tr, { c with team_data := assocSet c.team_data key tr })
        else (results, c)
      let results := step.1
      let c1 := step.2
      let c2 :=
        if upcoming then { c1 with upcoming_data := some results }
        else if !(truthy team || truthy tournament) then { c1 with recent_data := some results }
        else c1
      (some results,
       { c2 with timestamp := some now, scraping_failures := 0, last_success := some now })

/-- Embedding of `get_valorant_results` (lines 301-574): answer from the
cache when it can, else run a fetch cycle. -/
def get_valorant_results (limit : Nat) (upcoming : Bool) (team tournament : Option String)
    (fetched : Option Document) (now : Int) (c : ResultsCache) :
    Option (List MatchRecord) × ResultsCache :=
  match cacheLookup limit upcoming team tournament now c with
  | some cached => (some cached, c)
  | none => fetchCycle limit upcoming team tournament fetched now c

/-- The alert test of `check_scraping_health` (line 690): the operator alert
fires when the failure counter has reached 5. -/
def scrapingAlertCondition (c : ResultsCache) : Bool :=
  decide (5 ≤ c.scraping_failures)
/-- One row of the `match_reminders` table (`init_database` / §3 of the
design).  `match_time` is the UTC instant the stored ISO string denotes, in
integer seconds. -/
structure Reminder where
  id : Nat
  user_id : String
  channel_id : String
  match_url : String
  match_time : Int
  team1 : String
  team2 : String
  reminded : Bool
  created_at : Int
deriving Repr, DecidableEq

/-- The reminder table with its auto-increment counter. -/
structure ReminderDB where
  rows : List Reminder
  nextId : Nat
deriving Repr, DecidableEq

/-- Embedding of `add_match_reminder` (lines 1770-1787): insert a row with
`reminded = false` under a fresh auto-increment id and return the id. -/
def add_match_reminder (user_id channel_id match_url : String) (match_time : Int)
    (team1 team2 : String) (created_at : Int) (db : ReminderDB) : Nat × ReminderDB :=
  (db.nextId,
   { rows := db.rows ++
       [{ id := db.nextId, user_id := user_id, channel_id := channel_id,
          match_url := match_url, match_time := match_time,
          team1 := team1, team2 := team2, reminded := false,
          created_at := created_at }],
     nextId := db.nextId + 1 })

/-- Embedding of `get_pending_reminders` (lines 1789-1812): the rows with
`reminded = 0`. -/
def get_pending_reminders (db : ReminderDB) : List Reminder :=
  db.rows.filter (fun r => !r.reminded)

/-- Embedding of `mark_reminder_as_sent` (lines 1814-1823): `UPDATE
match_reminders SET reminded = 1 WHERE id = ?`; updating a missing id
touches no row and still succeeds. -/
def mark_reminder_as_sent (reminder_id : Nat) (db : ReminderDB) : ReminderDB :=
  { db with rows := db.rows.map (fun r =>
      if r.id = reminder_id then { r with reminded := true } else r) }

/-- The due-window test of `reminder_check_task` (line 743): with
`delta = match_time - now`, a reminder fires iff `delta ≤ 900` and
`delta > -1800`. -/
def isDue (match_time now : Int) : Bool :=
  decide (match_time - now ≤ 900) && decide (match_time - now > -1800)

/-- The scheduler scan (lines 719-743): the non-delivered reminders whose
match time lies in the due window. -/
def dueReminders (db : ReminderDB) (now : Int) : List Reminder :=
  (get_pending_reminders db).filter (fun r => isDue r.match_time now)

/-- The relative qualifier of `format_match_time` (lines 207-218), from the
delta `match instant - now` in seconds. -/
def relativeQualifier (delta : Int) : String :=
  if delta < 0 then "(Match has already started)"
  else if delta < 3600 then s!"(in {delta / 60} minutes)"
  else if delta < 86400 then s!"(in {delta / 3600} hours)"
  else s!"(in {delta / 86400} days)"

/-- Embedding of `format_match_time` (lines 187-223).  `strftimeLocal`
models the external `strftime` rendering of a local instant; the stored UTC
instant `dt` is converted to the target timezone by adding its offset, and
the relative qualifier is computed from `dt - now` (equal to the code's
`local_dt - now`, both being timezone-aware instants). -/
def format_match_time (strftimeLocal : Int → String) (dt : Option Int)
    (tzOffset : Int) (now : Int) : String :=
  match dt with
  | none => "Time unknown"
  | some t => strftimeLocal (t + tzOffset) ++ " " ++ relativeQualifier (t - now)
/-- A block on which none of the structured selector lookups of pass 1
return anything: fewer than two team slots, fewer than two score slots, no
event slot, no time slot. -/
def missingStructuredSlots (b : Block) : Prop :=
  b.teamEls.length < 2 ∧ b.scoreEls.length < 2 ∧ b.eventEl = none ∧ b.timeEl = none

instance (b : Block) : Decidable (missingStructuredSlots b) := by
  unfold missingStructuredSlots; infer_instance

/-- Guard of the first positional pattern (line 449 under line 447). -/
def fallbackPatternA (texts : List String) : Bool :=
  decide (6 ≤ texts.length) && timePatternHead texts

/-- Guard of the second positional pattern (line 455 under line 447). -/
def fallbackPatternB (texts : List String) : Bool :=
  decide (6 ≤ texts.length) && !timePatternHead texts &&
    decide (10 ≤ texts.length) && (texts.take 5).any pyIsdigit

/-- The value the positional fallback resolves for `team1`, when it resolves
one (lines 450, 458). -/
def fbTeam1 (texts : List String) : Option String :=
  if fallbackPatternA texts then some (texts.getD 1 "")
  else if fallbackPatternB texts then (fbTeamScan texts).map (fun i => texts.getD i "")
  else none

/-- The value the positional fallback resolves for `score1` (lines 451, 459-460). -/
def fbScore1 (texts : List String) : Option String :=
  if fallbackPatternA texts then
    if dqToken (texts.getD 2 "") then some (texts.getD 2 "") else none
  else if fallbackPatternB texts then
    match fbTeamScan texts with
    | some i => if i + 1 < texts.length ∧ dqToken (texts.getD (i+1) "") = true
                then some (texts.getD (i+1) "") else none
    | none => none
  else none

/-- The value the positional fallback resolves for `team2` (lines 452, 461-462). -/
def fbTeam2 (texts : List String) : Option String :=
  if fallbackPatternA texts then some (texts.getD 3 "")
  else if fallbackPatternB texts then
    match fbTeamScan texts with
    | some i => if i + 2 < texts.length ∧ (texts.getD (i+2) "").length > 2
                   ∧ pyIsdigit (texts.getD (i+2) "") = false
                then some (texts.getD (i+2) "") else none
    | none => none
  else none

/-- The value the positional fallback resolves for `score2` (lines 453, 463-464). -/
def fbScore2 (texts : List String) : Option String :=
  if fallbackPatternA texts then
    if dqToken (texts.getD 4 "") then some (texts.getD 4 "") else none
  else if fallbackPatternB texts then
    match fbTeamScan texts with
    | some i => if i + 3 < texts.length ∧ dqToken (texts.getD (i+3) "") = true
                then some (texts.getD (i+3) "") else none
    | none => none
  else none

/-- Whether one status keyword's iteration of the event fallback assigns the
event fields (lines 470-488). -/
def eventStepAssigns (texts : List String) (kw : String) : Bool :=
  match (List.range texts.length).find? (fun i => strContains (texts.getD i "") kw) with
  | some ki =>
    if ki + 2 < texts.length then
      ((List.range' (ki+1) (min (ki+5) texts.length - (ki+1))).find? (fun j =>
          let t := texts.getD j ""
          decide (t.length > 3) && !pyIsdigit t && !strContains t ":")).isSome
    else false
  | none => false

/-- Whether the event fallback resolves the event at all: some keyword's
iteration assigns. -/
def eventResolved (texts : List String) : Bool :=
  statusKeywords.any (eventStepAssigns texts)

/-- The `(stage, name)` pair the event fallback computes from the sentinel
start. -/
def fbEventPair (texts : List String) : String × String :=
  statusKeywords.foldl (eventKeywordStep texts) ("", "Unknown Event")

/-- The value the time fallback resolves for an upcoming match (lines 491-495). -/
def fbTime (texts : List String) : Option String :=
  if texts.length > 0 then
    (texts.take 3).find? (fun t => strContains t ":" && decide (countChar t ' ' ≤ 1))
  else none

/-- Sample match card: a block the structured selectors fully recognize. -/
def sampleBlock : Block :=
  { teamEls := ["Sentinels", "Cloud9"], href := some "/123/sen-vs-c9" }

/-- The record extracted from `sampleBlock` in results mode. -/
def sampleRecord : MatchRecord :=
  { team1 := "Sentinels", team2 := "Cloud9", score1 := "?", score2 := "?",
    event := "Unknown Event", stage := "", time := "",
    url := "https://www.vlr.gg/123/sen-vs-c9" }

/-- The record extracted from `sampleBlock` in upcoming mode. -/
def sampleRecordUpcoming : MatchRecord :=
  { sampleRecord with time := "TBD" }

/-- A document whose class-selector query finds `sampleBlock`. -/
def sampleDoc : Document := { matchCards := [sampleBlock] }

/-- A second sample match card, for a later fetch. -/
def sampleBlock2 : Block :=
  { teamEls := ["Fnatic", "Liquid"], href := some "/456/fnc-vs-tl" }

/-- The record extracted from `sampleBlock2` in results mode. -/
def sampleRecord2 : MatchRecord :=
  { team1 := "Fnatic", team2 := "Liquid", score1 := "?", score2 := "?",
    event := "Unknown Event", stage := "", time := "",
    url := "https://www.vlr.gg/456/fnc-vs-tl" }

/-- A document whose class-selector query finds `sampleBlock2`. -/
def sampleDoc2 : Document := { matchCards := [sampleBlock2] }

/-- A document where strategy 1 succeeds and strategies 2 and 3 would also
have matched. -/
def sampleDocNoisy : Document :=
  { matchCards := [sampleBlock],
    divs := [{ text := "Today", siblings := [sampleBlock2] }],
    allLinks := [sampleBlock2] }

/-- Cache state after a team-filtered fetch of `sampleDoc` at time 0. -/
def cacheAfterTeamFetch : ResultsCache :=
  (get_valorant_results 5 false (some "sentinels") none (some sampleDoc) 0 initialCache).2

/-- Cache state after a subsequent unfiltered fetch of `sampleDoc2` at time
600, past the 300-second TTL of the team entry. -/
def cacheAfterGeneralFetch : ResultsCache :=
  (get_valorant_results 5 false none none (some sampleDoc2) 600 cacheAfterTeamFetch).2

/-- A block carrying no structured slots, only loose text. -/
def slotlessBlock : Block :=
  { texts := ["12:00", "TeamA", "2", "TeamB", "1", "Completed", "Stage–Event X", "extra"],
    href := some "/789/ta-vs-tb" }
/-- A pending reminder for a match 600 seconds in the future of time 0. -/
def witnessReminder : Reminder :=
  { id := 1, user_id := "u1", channel_id := "c1",
    match_url := "https://www.vlr.gg/123/sen-vs-c9", match_time := 600,
    team1 := "Sentinels", team2 := "Cloud9", reminded := false, created_at := 0 }

/-- A one-row reminder table holding `witnessReminder`. -/
def witnessDB : ReminderDB := { rows := [witnessReminder], nextId := 2 }
/-! Helper lemmas. -/

/-- The running maximum of the first-max fold is an element of the list, or
the accumulator it started from. -/
theorem pyMaxBy_fold_mem (f : String → Nat) (l : List String) :
    ∀ (acc : Option String) (b : String),
      List.foldl (fun acc c =>
        match acc with
        | none => some c
        | some x => if f x < f c then some c else acc) acc l = some b →
      b ∈ l ∨ acc = some b := by
  induction l with
  | nil => intro acc b h; exact Or.inr h
  | cons c l ih =>
    intro acc b h
    rw [List.foldl_cons] at h
    rcases ih _ b h with hmem | hacc
    · exact Or.inl (List.mem_cons_of_mem _ hmem)
    · cases acc with
      | none =>
        simp only [] at hacc
        exact Or.inl (by simp only [Option.some.injEq] at hacc; rw [← hacc]; exact List.mem_cons_self c l)
      | some x =>
        by_cases hx : f x < f c
        · simp only [if_pos hx, Option.some.injEq] at hacc
          exact Or.inl (by rw [← hacc]; exact List.mem_cons_self c l)
        · simp only [if_neg hx] at hacc
          exact Or.inr hacc

/-- A value produced by `pyMaxBy` is an element of the list. -/
theorem pyMaxBy_mem (f : String → Nat) (l : List String) (b : String)
    (h : pyMaxBy f l = some b) : b ∈ l := by
  unfold pyMaxBy at h
  rcases pyMaxBy_fold_mem f l none b h with hmem | hacc
  · exact hmem
  · exact absurd hacc (by simp)

/-- When every choice scores below the cutoff, `extractOne` answers `none`. -/
theorem extractOne_below_cutoff (score : String → String → Nat) (query : String)
    (choices : List String) (cutoff : Nat)
    (h : ∀ c ∈ choices, score query c < cutoff) :
    extractOne score query choices cutoff = none := by
  unfold extractOne
  cases hb : pyMaxBy (fun c => score query c) choices with
  | none => rfl
  | some b =>
    have hmem : b ∈ choices := pyMaxBy_mem _ _ _ hb
    show (if cutoff ≤ score query b then some b else none) = none
    rw [if_neg (Nat.not_le.mpr (h b hmem))]

/-! Claim C1: the reminder due window. -/

/-- C1: a non-delivered reminder is selected by the scheduler scan at time
`now` iff `-1800 < matchTimeUTC - now ≤ 900`; in particular a reminder for
`now + 10` minutes is selected, while reminders for `now + 20` minutes and
`now - 40` minutes are left pending. -/
theorem reminder_due_window_claim :
    (∀ (db : ReminderDB) (now : Int) (r : Reminder),
        r ∈ dueReminders db now ↔
          r ∈ db.rows ∧ r.reminded = false ∧
            (-1800 : Int) < r.match_time - now ∧ r.match_time - now ≤ 900) ∧
    (∀ (db : ReminderDB) (now : Int) (r : Reminder),
        r ∈ db.rows → r.reminded = false → r.match_time = now + 600 →
          r ∈ dueReminders db now) ∧
    (∀ (db : ReminderDB) (now : Int) (r : Reminder),
        r.match_time = now + 1200 → r ∉ dueReminders db now) ∧
    (∀ (db : ReminderDB) (now : Int) (r : Reminder),
        r.match_time = now - 2400 → r ∉ dueReminders db now) := by
  have hmem : ∀ (db : ReminderDB) (now : Int) (r : Reminder),
      r ∈ dueReminders db now ↔
        r ∈ db.rows ∧ r.reminded = false ∧
          (-1800 : Int) < r.match_time - now ∧ r.match_time - now ≤ 900 := by
    intro db now r
    unfold dueReminders get_pending_reminders isDue
    simp only [List.mem_filter, Bool.and_eq_true, decide_eq_true_eq, Bool.not_eq_true']
    constructor
    · rintro ⟨⟨hrow, hrem⟩, hle, hgt⟩
      exact ⟨hrow, hrem, by omega, by omega⟩
    · rintro ⟨hrow, hrem, hgt, hle⟩
      exact ⟨⟨hrow, hrem⟩, by omega, by omega⟩
  refine ⟨hmem, ?_, ?_, ?_⟩
  · intro db now r hrow hrem ht
    exact (hmem db now r).mpr ⟨hrow, hrem, by omega, by omega⟩
  · intro db now r ht hin
    rcases (hmem db now r).mp hin with ⟨-, -, h1, h2⟩
    omega
  · intro db now r ht hin
    rcases (hmem db now r).mp hin with ⟨-, -, h1, h2⟩
    omega

/-- Witness for C1 at concrete inputs: the 600-second-away reminder is
selected at time 0, and is not selected at times -600 and 3000, where its
match lies 20 minutes ahead and 40 minutes behind. -/
theorem reminder_due_window_witness :
    witnessReminder ∈ dueReminders witnessDB 0 ∧
    witnessReminder ∉ dueReminders witnessDB (-600) ∧
    witnessReminder ∉ dueReminders witnessDB 3000 :=
  ⟨reminder_due_window_claim.2.1 witnessDB 0 witnessReminder (by decide) (by decide) (by decide),
   reminder_due_window_claim.2.2.1 witnessDB (-600) witnessReminder (by decide),
   reminder_due_window_claim.2.2.2 witnessDB 3000 witnessReminder (by decide)⟩

/-! Claim C8: `markDelivered` idempotence and monotonicity of `delivered`. -/

/-- C8: marking a reminder sent twice equals marking it once (and the
operation is total, hence never errors); after a mark, every row bearing the
marked id is delivered; and no store operation (`mark_reminder_as_sent`,
`add_match_reminder`) reverts a delivered row. -/
theorem mark_delivered_claim :
    (∀ (db : ReminderDB) (i : Nat),
        mark_reminder_as_sent i (mark_reminder_as_sent i db) = mark_reminder_as_sent i db) ∧
    (∀ (db : ReminderDB) (i : Nat) (r : Reminder),
        r ∈ (mark_reminder_as_sent i db).rows → r.id = i → r.reminded = true) ∧
    (∀ (db : ReminderDB) (i : Nat) (r : Reminder), r ∈ db.rows → r.reminded = true →
        ∃ r' ∈ (mark_reminder_as_sent i db).rows, r'.id = r.id ∧ r'.reminded = true) ∧
    (∀ (db : ReminderDB) (u c mu : String) (mt : Int) (t1 t2 : String) (ca : Int)
        (r : Reminder), r ∈ db.rows → r.reminded = true →
        r ∈ (add_match_reminder u c mu mt t1 t2 ca db).2.rows) := by
  refine ⟨?_, ?_, ?_, ?_⟩
  · intro db i
    unfold mark_reminder_as_sent
    simp only [List.map_map]
    congr 1
    apply List.map_congr_left
    intro r _
    by_cases hid : r.id = i
    · simp [Function.comp, hid]
    · simp [Function.comp, hid]
  · intro db i r hr hid
    unfold mark_reminder_as_sent at hr
    simp only [List.mem_map] at hr
    rcases hr with ⟨a, -, ha⟩
    by_cases haid : a.id = i
    · rw [if_pos haid] at ha; rw [← ha]
    · rw [if_neg haid] at ha; rw [← ha] at hid; exact absurd hid haid
  · intro db i r hr hrem
    refine ⟨if r.id = i then { r with reminded := true } else r, ?_, ?_⟩
    · unfold mark_reminder_as_sent
      simp only [List.mem_map]
      exact ⟨r, hr, rfl⟩
    · by_cases hid : r.id = i
      · simp [hid]
      · simp [hid, hrem]
  · intro db u c mu mt t1 t2 ca r hr _
    unfold add_match_reminder
    simp only [List.mem_append]
    exact Or.inl hr

/-- Witness for C8 at concrete inputs: double-marking id 1 of the sample
table equals single-marking it, and the marked row is delivered. -/
theorem mark_delivered_witness :
    mark_reminder_as_sent 1 (mark_reminder_as_sent 1 witnessDB) =
      mark_reminder_as_sent 1 witnessDB ∧
    ({ witnessReminder with reminded := true } : Reminder).reminded = true :=
  ⟨mark_delivered_claim.1 witnessDB 1,
   mark_delivered_claim.2.1 witnessDB 1 { witnessReminder with reminded := true }
     (by decide) (by decide)⟩
/-! Claim C9: display formatting and the relative qualifier. -/

/-- Counterexample to C9 as stated: at a delta of exactly zero the code
takes the `< 0` branch negatively and renders "(in 0 minutes)", not the
already-started qualifier the claim requires for every non-positive delta. -/
theorem format_zero_delta_counterexample :
    format_match_time (fun _ => "2025-06-01 18:00 UTC") (some 0) 0 0 =
      "2025-06-01 18:00 UTC (in 0 minutes)" := by decide

/-- C9 (amended): formatting converts the stored UTC instant to the target
timezone and appends the relative qualifier computed from the delta; the
already-started qualifier appears exactly for strictly negative deltas,
while every nonnegative delta (zero included) renders as "in N
minutes/hours/days" with N truncated from the delta. -/
theorem format_relative_claim (f : Int → String) (t tz now : Int) :
    format_match_time f (some t) tz now =
      f (t + tz) ++ " " ++ relativeQualifier (t - now) ∧
    (t - now < 0 → relativeQualifier (t - now) = "(Match has already started)") ∧
    (0 ≤ t - now → t - now < 3600 →
      relativeQualifier (t - now) = s!"(in {(t - now) / 60} minutes)") ∧
    (3600 ≤ t - now → t - now < 86400 →
      relativeQualifier (t - now) = s!"(in {(t - now) / 3600} hours)") ∧
    (86400 ≤ t - now → relativeQualifier (t - now) = s!"(in {(t - now) / 86400} days)") := by
  refine ⟨rfl, ?_, ?_, ?_, ?_⟩
  · intro h; unfold relativeQualifier; rw [if_pos h]
  · intro h0 h1
    unfold relativeQualifier
    rw [if_neg (by omega), if_pos h1]
  · intro h0 h1
    unfold relativeQualifier
    rw [if_neg (by omega), if_neg (by omega), if_pos h1]
  · intro h0
    unfold relativeQualifier
    rw [if_neg (by omega), if_neg (by omega), if_neg (by omega)]

/-- Witness for C9 (amended) at concrete inputs: a match 100 seconds ahead
renders "in 1 minutes", a match 100 seconds past renders the already-started
qualifier. -/
theorem format_relative_witness :
    relativeQualifier ((100 : Int) - 0) = "(in 1 minutes)" ∧
    relativeQualifier ((-100 : Int) - 0) = "(Match has already started)" :=
  ⟨by rw [(format_relative_claim (fun _ => "") 100 0 0).2.2.1 (by decide) (by decide)]; decide,
   (format_relative_claim (fun _ => "") (-100) 0 0).2.1 (by decide)⟩

/-! Claim C4: the resolver cascade. -/

/-- C4: the resolver is the short-circuiting cascade; "c9" resolves through
the alias table to "cloud9" and "sentinel" through substring containment to
"sentinels" whatever the fuzzy scorer says, and when no cascade step matches
— here "xyzzy123", with every fuzzy score below the 80 cutoff — the input
comes back unchanged. -/
theorem resolver_cascade_claim (score : String → String → Nat)
    (h : ∀ t ∈ TEAM_COLORS_KEYS, score "xyzzy123" t < 80) :
    resolve_team_name score "c9" = "cloud9" ∧
    resolve_team_name score "sentinel" = "sentinels" ∧
    resolve_team_name score "xyzzy123" = "xyzzy123" := by
  refine ⟨rfl, rfl, ?_⟩
  have hlow : pyLower "xyzzy123" = "xyzzy123" := by decide
  have hfuzz : extractOne score "xyzzy123" TEAM_COLORS_KEYS 80 = none :=
    extractOne_below_cutoff score "xyzzy123" TEAM_COLORS_KEYS 80 h
  unfold resolve_team_name
  rw [if_neg (by decide : ¬("xyzzy123" = ""))]
  simp only [hlow]
  have halias : assocFind TEAM_ALIASES "xyzzy123" = none := by decide
  have hsub : TEAM_COLORS_KEYS.find?
      (fun team => ("xyzzy123" = team : Bool) || strContains team "xyzzy123") = none := by decide
  rw [halias, hsub, hfuzz]

/-- Witness for C4 at a concrete scorer: with the all-zero scorer every
choice is below the cutoff and the three resolutions hold. -/
theorem resolver_cascade_witness :
    resolve_team_name (fun _ _ => 0) "c9" = "cloud9" ∧
    resolve_team_name (fun _ _ => 0) "sentinel" = "sentinels" ∧
    resolve_team_name (fun _ _ => 0) "xyzzy123" = "xyzzy123" :=
  resolver_cascade_claim (fun _ _ => 0) (by intro t ht; show (0 : Nat) < 80; decide)

/-! Claim C7: the locator short-circuit. -/

/-- C7: when the class-selector strategy finds at least one block the
locator returns exactly those blocks, and its output is unchanged by
whatever the date-header walk or the link scan would have found. -/
theorem locator_short_circuit_claim :
    (∀ d : Document, d.matchCards ≠ [] → locate d = d.matchCards) ∧
    (∀ d d' : Document, d.matchCards = d'.matchCards → d.matchCards ≠ [] →
      locate d = locate d') := by
  have h1 : ∀ d : Document, d.matchCards ≠ [] → locate d = d.matchCards := by
    intro d hne
    unfold locate
    rw [if_pos]
    simp [List.isEmpty_iff, hne]
  refine ⟨h1, ?_⟩
  intro d d' heq hne
  rw [h1 d hne, h1 d' (heq ▸ hne), heq]

/-- Witness for C7 at concrete documents: `sampleDocNoisy` has the same
match cards as `sampleDoc` but also data that strategies 2 and 3 would
match; the locator output is identical. -/
theorem locator_short_circuit_witness :
    locate sampleDoc = sampleDoc.matchCards ∧
    locate sampleDocNoisy = locate sampleDoc ∧
    strategyDateHeaders sampleDocNoisy = [sampleBlock2] ∧
    strategyLinkScan sampleDocNoisy = [sampleBlock2] :=
  ⟨locator_short_circuit_claim.1 sampleDoc (by decide),
   locator_short_circuit_claim.2 sampleDocNoisy sampleDoc (by decide) (by decide),
   by decide, by decide⟩
/-! Claim C2: the failure counter and the alert condition. -/

/-- Counterexample to C2 as stated: a fetch that succeeds but locates no
match elements (lines 393-395) returns the empty record list — a successful
fetch by the spec's own empty-versus-null contract — yet leaves the failure
counter at 2 and records no `lastSuccess`, instead of resetting the counter
to zero. -/
theorem health_counter_counterexample :
    fetchCycle 5 false none none (some {}) 1000
        { initialCache with scraping_failures := 2 } =
      (some [], { initialCache with scraping_failures := 2 }) ∧
    ({ initialCache with scraping_failures := 2 } : ResultsCache).scraping_failures = 2 ∧
    ({ initialCache with scraping_failures := 2 } : ResultsCache).last_success = none := by
  decide

/-- C2 (amended): a failed fetch cycle increments the failure counter by
exactly one and changes nothing else; a successful fetch that locates at
least one candidate block resets the counter to zero and records
`last_success`; a successful fetch that locates no candidate blocks returns
the empty list with the cache — counter and `last_success` included —
unchanged; and the operator-alert condition holds exactly when the counter
is at least 5. -/
theorem health_counter_claim (limit : Nat) (u : Bool) (team tournament : Option String)
    (now : Int) (c : ResultsCache) :
    (fetchCycle limit u team tournament none now c =
      (none, { c with scraping_failures := c.scraping_failures + 1 })) ∧
    (∀ doc : Document, (locate doc).isEmpty = false →
      (fetchCycle limit u team tournament (some doc) now c).2.scraping_failures = 0 ∧
      (fetchCycle limit u team tournament (some doc) now c).2.last_success = some now) ∧
    (∀ doc : Document, (locate doc).isEmpty = true →
      fetchCycle limit u team tournament (some doc) now c = (some [], c)) ∧
    (scrapingAlertCondition c = true ↔ 5 ≤ c.scraping_failures) := by
  refine ⟨rfl, ?_, ?_, ?_⟩
  · intro doc hdoc
    simp only [fetchCycle, hdoc, Bool.false_eq_true, if_false]
    exact ⟨trivial, trivial⟩
  · intro doc hdoc
    simp only [fetchCycle, hdoc, if_true]
  · simp [scrapingAlertCondition]

/-- Witness for C2 (amended) at concrete inputs: a failed fetch on the
empty cache moves the counter to 1, and a successful fetch of `sampleDoc`
resets it and records the time. -/
theorem health_counter_witness :
    fetchCycle 5 false none none none 0 initialCache =
      (none, { initialCache with scraping_failures := 1 }) ∧
    (fetchCycle 5 false none none (some sampleDoc) 7 initialCache).2.scraping_failures = 0 ∧
    (fetchCycle 5 false none none (some sampleDoc) 7 initialCache).2.last_success = some 7 :=
  ⟨(health_counter_claim 5 false none none 0 initialCache).1,
   (health_counter_claim 5 false none none 7 initialCache).2.1 sampleDoc (by decide)⟩
/-- A nonempty optional string is Python-truthy. -/
theorem truthy_some_of_ne (s : String) (h : s ≠ "") : truthy (some s) = true := by
  simp [truthy, h]

/-- Characterization of a successful unfiltered fetch cycle: the extracted
records are returned, the general slot for the requested direction is
replaced, and no other slot changes. -/
theorem fetchCycle_unfiltered (limit : Nat) (u : Bool) (team tournament : Option String)
    (doc : Document) (now : Int) (c : ResultsCache)
    (hdoc : (locate doc).isEmpty = false)
    (htm : truthy team = false) (htn : truthy tournament = false) :
    fetchCycle limit u team tournament (some doc) now c =
      (some (processBlocks u ((locate doc).take limit)),
       { c with
          recent_data := if u then c.recent_data
                         else some (processBlocks u ((locate doc).take limit)),
          upcoming_data := if u then some (processBlocks u ((locate doc).take limit))
                           else c.upcoming_data,
          timestamp := some now, scraping_failures := 0, last_success := some now }) := by
  simp only [fetchCycle, hdoc, Bool.false_eq_true, if_false, htm, htn, Bool.or_self,
    Bool.not_false, if_true]
  cases u <;> simp

/-- Characterization of a successful tournament-filtered fetch cycle: the
tournament-filtered records are returned and stored under the tournament
key; the upcoming slot is additionally overwritten when the query is for
upcoming matches; nothing else changes.  The team argument is never
consulted. -/
theorem fetchCycle_tournament (limit : Nat) (u : Bool) (team : Option String) (tn : String)
    (doc : Document) (now : Int) (c : ResultsCache)
    (hdoc : (locate doc).isEmpty = false) (htn : tn ≠ "") :
    fetchCycle limit u team (some tn) (some doc) now c =
      (some (tournamentFilter (pyLower tn) (processBlocks u ((locate doc).take limit))),
       { c with
          tournament_data := assocSet c.tournament_data (pyLower tn)
            (tournamentFilter (pyLower tn) (processBlocks u ((locate doc).take limit))),
          upcoming_data := if u then
              some (tournamentFilter (pyLower tn) (processBlocks u ((locate doc).take limit)))
            else c.upcoming_data,
          timestamp := some now, scraping_failures := 0, last_success := some now }) := by
  have ht : truthy (some tn) = true := truthy_some_of_ne tn htn
  simp only [fetchCycle, hdoc, Bool.false_eq_true, if_false, ht, if_true, Option.getD_some,
    Bool.or_true, Bool.not_true]
  cases u <;> simp

/-- Characterization of a successful team-filtered fetch cycle (no
tournament filter): the team-filtered records are returned and stored under
the team key; the upcoming slot is additionally overwritten when the query
is for upcoming matches; nothing else changes. -/
theorem fetchCycle_team (limit : Nat) (u : Bool) (tm : String) (tournament : Option String)
    (doc : Document) (now : Int) (c : ResultsCache)
    (hdoc : (locate doc).isEmpty = false) (htm : tm ≠ "") (htn : truthy tournament = false) :
    fetchCycle limit u (some tm) tournament (some doc) now c =
      (some (teamFilter (pyLower tm) (processBlocks u ((locate doc).take limit))),
       { c with
          team_data := assocSet c.team_data (pyLower tm)
            (teamFilter (pyLower tm) (processBlocks u ((locate doc).take limit))),
          upcoming_data := if u then
              some (teamFilter (pyLower tm) (processBlocks u ((locate doc).take limit)))
            else c.upcoming_data,
          timestamp := some now, scraping_failures := 0, last_success := some now }) := by
  have ht : truthy (some tm) = true := truthy_some_of_ne tm htm
  simp only [fetchCycle, hdoc, Bool.false_eq_true, if_false, ht, htn, if_true,
    Option.getD_some, Bool.true_or, Bool.or_false, Bool.not_true]
  cases u <;> simp
/-! Claim C6: independence of the cache slots. -/

/-- Counterexample to C6 as stated: a team-filtered fetch of upcoming
matches also overwrites the general upcoming slot (line 542 guards only the
recent slot against filtered searches), so a filtered fetch does not write
only its own filtered slot. -/
theorem cache_slot_writes_counterexample :
    (fetchCycle 5 true (some "sentinels") none (some sampleDoc) 0 initialCache).2.upcoming_data =
      some [sampleRecordUpcoming] ∧
    initialCache.upcoming_data = none := by decide

/-- C6 (amended): an unfiltered fetch writes only the general slot of the
requested direction and never a filtered slot; a tournament- or
team-filtered fetch writes its own filtered slot, never the general recent
slot and never the other filtered family — but when the query is for
upcoming matches it additionally overwrites the general upcoming slot with
the filtered list. -/
theorem cache_slot_writes_claim (limit : Nat) (u : Bool) (doc : Document) (now : Int)
    (c : ResultsCache) (hdoc : (locate doc).isEmpty = false) :
    (∀ team tournament : Option String, truthy team = false → truthy tournament = false →
      (fetchCycle limit u team tournament (some doc) now c).2.team_data = c.team_data ∧
      (fetchCycle limit u team tournament (some doc) now c).2.tournament_data =
        c.tournament_data ∧
      (u = true →
        (fetchCycle limit u team tournament (some doc) now c).2.upcoming_data =
          some (processBlocks u ((locate doc).take limit)) ∧
        (fetchCycle limit u team tournament (some doc) now c).2.recent_data = c.recent_data) ∧
      (u = false →
        (fetchCycle limit u team tournament (some doc) now c).2.recent_data =
          some (processBlocks u ((locate doc).take limit)) ∧
        (fetchCycle limit u team tournament (some doc) now c).2.upcoming_data =
          c.upcoming_data)) ∧
    (∀ (team : Option String) (tn : String), tn ≠ "" →
      (fetchCycle limit u team (some tn) (some doc) now c).2.tournament_data =
        assocSet c.tournament_data (pyLower tn)
          (tournamentFilter (pyLower tn) (processBlocks u ((locate doc).take limit))) ∧
      (fetchCycle limit u team (some tn) (some doc) now c).2.team_data = c.team_data ∧
      (fetchCycle limit u team (some tn) (some doc) now c).2.recent_data = c.recent_data ∧
      (u = false →
        (fetchCycle limit u team (some tn) (some doc) now c).2.upcoming_data =
          c.upcoming_data) ∧
      (u = true →
        (fetchCycle limit u team (some tn) (some doc) now c).2.upcoming_data =
          some (tournamentFilter (pyLower tn)
            (processBlocks u ((locate doc).take limit))))) ∧
    (∀ (tm : String) (tournament : Option String), tm ≠ "" → truthy tournament = false →
      (fetchCycle limit u (some tm) tournament (some doc) now c).2.team_data =
        assocSet c.team_data (pyLower tm)
          (teamFilter (pyLower tm) (processBlocks u ((locate doc).take limit))) ∧
      (fetchCycle limit u (some tm) tournament (some doc) now c).2.tournament_data =
        c.tournament_data ∧
      (fetchCycle limit u (some tm) tournament (some doc) now c).2.recent_data =
        c.recent_data ∧
      (u = false →
        (fetchCycle limit u (some tm) tournament (some doc) now c).2.upcoming_data =
          c.upcoming_data) ∧
      (u = true →
        (fetchCycle limit u (some tm) tournament (some doc) now c).2.upcoming_data =
          some (teamFilter (pyLower tm) (processBlocks u ((locate doc).take limit))))) := by
  refine ⟨?_, ?_, ?_⟩
  · intro team tournament htm htn
    rw [fetchCycle_unfiltered limit u team tournament doc now c hdoc htm htn]
    refine ⟨rfl, rfl, ?_, ?_⟩
    · intro hu; subst hu; exact ⟨rfl, rfl⟩
    · intro hu; subst hu; exact ⟨rfl, rfl⟩
  · intro team tn htn
    rw [fetchCycle_tournament limit u team tn doc now c hdoc htn]
    refine ⟨rfl, rfl, rfl, ?_, ?_⟩
    · intro hu; subst hu; rfl
    · intro hu; subst hu; rfl
  · intro tm tournament htm htn
    rw [fetchCycle_team limit u tm tournament doc now c hdoc htm htn]
    refine ⟨rfl, rfl, rfl, ?_, ?_⟩
    · intro hu; subst hu; rfl
    · intro hu; subst hu; rfl

/-- Witness for C6 (amended) at concrete inputs: an unfiltered recent fetch
of `sampleDoc` leaves both filtered families and the upcoming slot
untouched and fills the recent slot; a team-filtered recent fetch leaves
the general slots untouched. -/
theorem cache_slot_writes_witness :
    (fetchCycle 5 false none none (some sampleDoc) 0 initialCache).2.team_data =
      initialCache.team_data ∧
    (fetchCycle 5 false none none (some sampleDoc) 0 initialCache).2.recent_data =
      some [sampleRecord] ∧
    (fetchCycle 5 false (some "sentinels") none (some sampleDoc) 0 initialCache).2.recent_data =
      initialCache.recent_data ∧
    (fetchCycle 5 false (some "sentinels") none (some sampleDoc) 0 initialCache).2.upcoming_data =
      initialCache.upcoming_data := by
  have h1 := (cache_slot_writes_claim 5 false sampleDoc 0 initialCache (by decide)).1
    none none (by decide) (by decide)
  have h3 := (cache_slot_writes_claim 5 false sampleDoc 0 initialCache (by decide)).2.2
    "sentinels" none (by decide) (by decide)
  refine ⟨h1.1, ?_, h3.2.2.1, h3.2.2.2.1 rfl⟩
  rw [(h1.2.2.2 rfl).1]
  decide
/-! Claim C10: tournament filter takes precedence over team filter. -/

/-- C10: when both filters are supplied the team filter is ignored entirely
— the whole call behaves as if only the tournament filter had been given —
the cache lookup consults only the tournament sub-cache, and a fresh fetch
for a results (non-upcoming) query applies only the tournament filter and
writes only the tournament slot. -/
theorem tournament_precedence_claim :
    (∀ (limit : Nat) (u : Bool) (team : Option String) (tn : String)
        (fetched : Option Document) (now : Int) (c : ResultsCache), tn ≠ "" →
        get_valorant_results limit u team (some tn) fetched now c =
          get_valorant_results limit u none (some tn) fetched now c) ∧
    (∀ (limit : Nat) (u : Bool) (team : Option String) (tn : String) (now : Int)
        (c : ResultsCache), tn ≠ "" →
        cacheLookup limit u team (some tn) now c =
          (if cacheFresh c now then
            (assocFind c.tournament_data (pyLower tn)).map (fun l => l.take limit)
          else none)) ∧
    (∀ (limit : Nat) (team : Option String) (tn : String) (doc : Document) (now : Int)
        (c : ResultsCache), tn ≠ "" → (locate doc).isEmpty = false →
        fetchCycle limit false team (some tn) (some doc) now c =
          (some (tournamentFilter (pyLower tn)
              (processBlocks false ((locate doc).take limit))),
           { c with
              tournament_data := assocSet c.tournament_data (pyLower tn)
                (tournamentFilter (pyLower tn)
                  (processBlocks false ((locate doc).take limit))),
              timestamp := some now, scraping_failures := 0,
              last_success := some now })) := by
  have hlookup : ∀ (limit : Nat) (u : Bool) (team : Option String) (tn : String) (now : Int)
      (c : ResultsCache), tn ≠ "" →
      cacheLookup limit u team (some tn) now c = cacheLookup limit u none (some tn) now c := by
    intro limit u team tn now c htn
    have ht : truthy (some tn) = true := truthy_some_of_ne tn htn
    simp only [cacheLookup, ht, if_true]
  have hfetch : ∀ (limit : Nat) (u : Bool) (team : Option String) (tn : String)
      (fetched : Option Document) (now : Int) (c : ResultsCache), tn ≠ "" →
      fetchCycle limit u team (some tn) fetched now c =
        fetchCycle limit u none (some tn) fetched now c := by
    intro limit u team tn fetched now c htn
    cases fetched with
    | none => rfl
    | some doc =>
      cases hdoc : (locate doc).isEmpty with
      | true => simp only [fetchCycle, hdoc, if_true]
      | false =>
        rw [fetchCycle_tournament limit u team tn doc now c hdoc htn,
          fetchCycle_tournament limit u none tn doc now c hdoc htn]
  refine ⟨?_, ?_, ?_⟩
  · intro limit u team tn fetched now c htn
    unfold get_valorant_results
    rw [hlookup limit u team tn now c htn]
    cases hc : cacheLookup limit u none (some tn) now c with
    | none => simp only [hc]; exact hfetch limit u team tn fetched now c htn
    | some cached => simp only [hc]
  · intro limit u team tn now c htn
    have ht : truthy (some tn) = true := truthy_some_of_ne tn htn
    simp only [cacheLookup, ht, if_true, Option.getD_some]
  · intro limit team tn doc now c htn hdoc
    rw [fetchCycle_tournament limit false team tn doc now c hdoc htn]
    simp

/-- Witness for C10 at concrete inputs: with both a team and a tournament
filter, the call equals the tournament-only call, and a fresh non-upcoming
fetch writes only the tournament slot. -/
theorem tournament_precedence_witness :
    get_valorant_results 5 false (some "liquid") (some "vct") (some sampleDoc) 0 initialCache =
      get_valorant_results 5 false none (some "vct") (some sampleDoc) 0 initialCache ∧
    (fetchCycle 5 false (some "liquid") (some "vct") (some sampleDoc) 0 initialCache).2.team_data =
      initialCache.team_data :=
  ⟨tournament_precedence_claim.1 5 false (some "liquid") "vct" (some sampleDoc) 0 initialCache
     (by decide),
   by rw [tournament_precedence_claim.2.2 5 (some "liquid") "vct" sampleDoc 0 initialCache
       (by decide) (by decide)]⟩
/-! Claim C3: cache freshness is not per dimension. -/

/-- Counterexample to C3 as stated: the team entry for "sentinels" is stored
at time 0; its own 5-minute window ends at time 300; an unfiltered fetch at
time 600 advances the single shared `timestamp`; at time 700 the team query
is then answered from the 700-second-old entry without any fetch (the fetch
argument is `none`, which would have produced a failure had a fetch been
attempted) — a fetch for one dimension made a stale entry of another count
as fresh. -/
theorem shared_ttl_counterexample :
    cacheAfterTeamFetch.team_data = [("sentinels", [sampleRecord])] ∧
    cacheAfterTeamFetch.timestamp = some 0 ∧
    cacheAfterGeneralFetch.team_data = [("sentinels", [sampleRecord])] ∧
    cacheAfterGeneralFetch.timestamp = some 600 ∧
    get_valorant_results 5 false (some "sentinels") none none 700 cacheAfterGeneralFetch =
      (some [sampleRecord], cacheAfterGeneralFetch) := by decide

/-- C3 (amended): freshness is a single shared clock, not per dimension: any
successful fetch cycle, whatever its dimension, sets the one shared
`timestamp` to the fetch time, and for the following 300 seconds every
dimension's lookup — a team entry here — is answered from the cache,
regardless of when that entry itself was stored. -/
theorem shared_ttl_claim :
    (∀ (limit : Nat) (u : Bool) (team tournament : Option String) (doc : Document)
        (now : Int) (c : ResultsCache), (locate doc).isEmpty = false →
        (fetchCycle limit u team tournament (some doc) now c).2.timestamp = some now) ∧
    (∀ (c : ResultsCache) (ts now : Int) (k : String) (v : List MatchRecord) (limit : Nat),
        c.timestamp = some ts → now - ts < 300 → k ≠ "" →
        assocFind c.team_data (pyLower k) = some v →
        ∀ fetched : Option Document,
          get_valorant_results limit false (some k) none fetched now c =
            (some (v.take limit), c)) := by
  constructor
  · intro limit u team tournament doc now c hdoc
    simp only [fetchCycle, hdoc, Bool.false_eq_true, if_false]
  · intro c ts now k v limit hts h300 hk hfind fetched
    have hfresh : cacheFresh c now = true := by
      unfold cacheFresh
      rw [hts]
      simpa using h300
    have ht : truthy (some k) = true := truthy_some_of_ne k hk
    unfold get_valorant_results
    rw [show cacheLookup limit false (some k) none now c = some (v.take limit) by
      simp only [cacheLookup, hfresh, if_true, truthy, Option.getD_some, hfind]
      rw [if_neg (by simp), if_pos (by simp [hk])]
      rfl]
/-- Witness for C3 (amended) at concrete inputs: the unfiltered fetch at
time 600 sets the shared timestamp, and the team query at time 700 is then
served from the entry stored at time 0. -/
theorem shared_ttl_witness :
    (fetchCycle 5 false none none (some sampleDoc2) 600 cacheAfterTeamFetch).2.timestamp =
      some 600 ∧
    get_valorant_results 5 false (some "sentinels") none none 700 cacheAfterGeneralFetch =
      (some ([sampleRecord].take 5), cacheAfterGeneralFetch) :=
  ⟨shared_ttl_claim.1 5 false none none sampleDoc2 600 cacheAfterTeamFetch (by decide),
   shared_ttl_claim.2 cacheAfterGeneralFetch 600 700 "sentinels" [sampleRecord] 5
     (by decide) (by decide) (by decide) (by decide) none⟩
/-! Claim C5: sentinel-exact field extraction. -/

/-- On the sentinel quad, the positional fallback yields per field exactly
the resolver's value when it resolves, and the sentinel otherwise. -/
theorem teamFallbackQuad_sentinel (texts : List String) :
    teamFallbackQuad texts
        { team1 := "Unknown", score1 := "?", team2 := "Unknown", score2 := "?" } =
      { team1 := (fbTeam1 texts).getD "Unknown", score1 := (fbScore1 texts).getD "?",
        team2 := (fbTeam2 texts).getD "Unknown", score2 := (fbScore2 texts).getD "?" } := by
  unfold teamFallbackQuad fbTeam1 fbTeam2 fbScore1 fbScore2 fallbackPatternA fallbackPatternB
  by_cases h6 : texts.length ≥ 6
  · by_cases htp : timePatternHead texts = true
    · simp only [h6, htp, if_pos, decide_eq_true_eq, Bool.and_self, if_true, decide_True,
        Bool.true_and]
      split_ifs <;> rfl
    · have htp' : timePatternHead texts = false := by simpa using htp
      simp only [h6, htp', if_pos, decide_eq_true_eq, Bool.false_eq_true, if_false,
        decide_True, Bool.true_and, Bool.not_false, Bool.and_self]
      by_cases hB : texts.length ≥ 10 ∧ (texts.take 5).any pyIsdigit = true
      · simp only [hB, if_true, hB.1, hB.2, decide_True, Bool.true_and, Bool.and_self,
          if_pos]
        cases hscan : fbTeamScan texts with
        | none => simp [hscan]
        | some i =>
          simp only [hscan, Option.map_some, Option.getD_some]
          split_ifs <;> simp_all
      · have hB' : ¬ (texts.length ≥ 10 ∧ (texts.take 5).any pyIsdigit = true) := hB
        rw [if_neg hB']
        have hfac : (decide (10 ≤ texts.length) && (texts.take 5).any pyIsdigit) = false := by
          rcases Decidable.not_and_iff_or_not.mp hB' with h10 | hany
          · simp [decide_eq_false h10]
          · simp [Bool.eq_false_iff.mpr hany]
        rw [hfac]
        simp
  · rw [if_neg h6]
    simp [decide_eq_false h6]
/-- On a block with no structured slots, the selector pass assigns nothing. -/
theorem applySelectors_missing (u : Bool) (b : Block) (h : missingStructuredSlots b) :
    applySelectors u b initExtractState = initExtractState := by
  obtain ⟨h1, h2, h3, h4⟩ := h
  simp only [applySelectors]
  rw [if_neg (show ¬(b.teamEls.length ≥ 2) by omega),
    if_neg (show ¬(b.scoreEls.length ≥ 2) by omega), h3]
  cases u with
  | false => rfl
  | true => rw [h4]; rfl

/-- The positional fallback, started from the all-sentinel state, leaves
exactly the per-field resolver values (or the sentinels). -/
theorem applyTeamFallback_init (texts : List String) :
    applyTeamFallback texts initExtractState =
      { team1 := (fbTeam1 texts).getD "Unknown", team2 := (fbTeam2 texts).getD "Unknown",
        score1 := (fbScore1 texts).getD "?", score2 := (fbScore2 texts).getD "?",
        event_name := "Unknown Event", event_stage := "", match_time := "TBD" } := by
  unfold applyTeamFallback
  rw [if_pos (by simp [initExtractState])]
  have hq := teamFallbackQuad_sentinel texts
  simp only [initExtractState] at hq ⊢
  rw [show ({ team1 := "Unknown", score1 := "?", team2 := "Unknown", score2 := "?" } :
      TeamScores) = { team1 := "Unknown", score1 := "?", team2 := "Unknown", score2 := "?" }
    from rfl, hq]

/-- A keyword iteration that does not assign leaves the event pair alone. -/
theorem eventKeywordStep_id (texts : List String) (p : String × String) (kw : String)
    (h : eventStepAssigns texts kw = false) : eventKeywordStep texts p kw = p := by
  unfold eventKeywordStep
  unfold eventStepAssigns at h
  cases hfind : (List.range texts.length).find? (fun i => strContains (texts.getD i "") kw) with
  | none => rfl
  | some ki =>
    simp only [hfind] at h ⊢
    by_cases hki : ki + 2 < texts.length
    · rw [if_pos hki] at h ⊢
      cases hinner : (List.range' (ki+1) (min (ki+5) texts.length - (ki+1))).find? (fun j =>
          let t := texts.getD j ""
          decide (t.length > 3) && !pyIsdigit t && !strContains t ":") with
      | none => rfl
      | some j => rw [hinner] at h; simp at h
    · rw [if_neg hki]

/-- When no keyword iteration assigns, the event fold is the identity. -/
theorem fbEventPair_unresolved (texts : List String) (h : eventResolved texts = false) :
    fbEventPair texts = ("", "Unknown Event") := by
  unfold fbEventPair
  have hall : ∀ kw ∈ statusKeywords, eventStepAssigns texts kw = false := by
    intro kw hkw
    have := List.any_eq_false.mp (by simpa [eventResolved] using h) kw hkw
    simpa using this
  have : ∀ (l : List String) (p : String × String),
      (∀ kw ∈ l, eventStepAssigns texts kw = false) →
      l.foldl (eventKeywordStep texts) p = p := by
    intro l
    induction l with
    | nil => intro p _; rfl
    | cons kw l ih =>
      intro p hl
      rw [List.foldl_cons, eventKeywordStep_id texts p kw (hl kw (List.mem_cons_self kw l))]
      exact ih p (fun k hk => hl k (List.mem_cons_of_mem kw hk))
  exact this statusKeywords ("", "Unknown Event") hall

/-- The event fallback on a state whose event fields still hold the
sentinels computes exactly the fold of the keyword loop. -/
theorem applyEventFallback_sentinel (texts : List String) (st : ExtractState)
    (h1 : st.event_name = "Unknown Event") (h2 : st.event_stage = "") :
    applyEventFallback texts st =
      { st with event_stage := (fbEventPair texts).1,
                event_name := (fbEventPair texts).2 } := by
  unfold applyEventFallback
  rw [if_pos h1, h1, h2]
  rfl

/-- The time fallback on a state whose `match_time` still holds the sentinel
computes exactly the time resolver (upcoming mode), or nothing. -/
theorem applyTimeFallback_char (u : Bool) (texts : List String) (st : ExtractState)
    (h : st.match_time = "TBD") :
    applyTimeFallback u texts st =
      { st with match_time := if u then (fbTime texts).getD "TBD" else "TBD" } := by
  unfold applyTimeFallback fbTime
  cases u with
  | false =>
    simp only [Bool.false_and, Bool.false_eq_true, if_false]
    cases st; simp_all
  | true =>
    rw [h]
    by_cases hl : texts.length > 0
    · simp only [decide_eq_true_eq, hl, decide_True, Bool.true_and, Bool.and_true,
        decide_eq_true_iff, if_true, if_pos]
      cases hf : (texts.take 3).find? (fun t => strContains t ":" &&
          decide (countChar t ' ' ≤ 1)) with
      | none => cases st; simp_all
      | some t => simp_all
    · have hl' : (decide (texts.length > 0)) = false := by simpa using hl
      simp only [hl', Bool.and_false, Bool.false_eq_true, if_false]
      cases st; simp_all

/-- Per-block exceptions skip only the raising block: the batch loop equals
extraction mapped over the non-raising blocks. -/
theorem processBlocks_filter_map (u : Bool) (blocks : List Block) :
    processBlocks u blocks =
      (blocks.filter (fun x => !x.raises)).map (extractBlock u) := by
  suffices h : ∀ acc : List MatchRecord,
      blocks.foldl (fun acc b => if b.raises then acc else acc ++ [extractBlock u b]) acc =
        acc ++ (blocks.filter (fun x => !x.raises)).map (extractBlock u) by
    simpa [processBlocks] using h []
  induction blocks with
  | nil => intro acc; simp
  | cons b bs ih =>
    intro acc
    by_cases hb : b.raises = true
    · simp [List.foldl_cons, hb, ih, List.filter_cons]
    · have hb' : b.raises = false := by simpa using hb
      simp [List.foldl_cons, hb', ih, List.filter_cons]
/-- C5: extraction is total (never raises to its caller), and on every block
missing all structured slots each field of the returned record is exactly
the positional resolver's value when that resolver fires and the field's
sentinel ("Unknown" / "?" / "Unknown Event") otherwise; a per-block
exception (modelled by `raises`) skips only that block and the rest of the
batch is extracted. -/
theorem extraction_sentinel_claim (u : Bool) (b : Block) (h : missingStructuredSlots b) :
    (extractBlock u b).team1 = (fbTeam1 b.texts).getD "Unknown" ∧
    (extractBlock u b).team2 = (fbTeam2 b.texts).getD "Unknown" ∧
    (extractBlock u b).score1 = (fbScore1 b.texts).getD "?" ∧
    (extractBlock u b).score2 = (fbScore2 b.texts).getD "?" ∧
    (extractBlock u b).stage = (fbEventPair b.texts).1 ∧
    (extractBlock u b).event = (fbEventPair b.texts).2 ∧
    (eventResolved b.texts = false →
      (extractBlock u b).stage = "" ∧ (extractBlock u b).event = "Unknown Event") ∧
    (extractBlock u b).time = (if u then (fbTime b.texts).getD "TBD" else "") ∧
    (extractBlock u b).url = "https://www.vlr.gg" ++ b.href.getD "" ∧
    (∀ blocks : List Block, processBlocks u blocks =
      (blocks.filter (fun x => !x.raises)).map (extractBlock u)) := by
  have key : extractBlock u b =
      { team1 := (fbTeam1 b.texts).getD "Unknown", team2 := (fbTeam2 b.texts).getD "Unknown",
        score1 := (fbScore1 b.texts).getD "?", score2 := (fbScore2 b.texts).getD "?",
        event := (fbEventPair b.texts).2, stage := (fbEventPair b.texts).1,
        time := if u then (fbTime b.texts).getD "TBD" else "",
        url := "https://www.vlr.gg" ++ b.href.getD "" } := by
    simp only [extractBlock]
    rw [applySelectors_missing u b h, applyTeamFallback_init b.texts,
      applyEventFallback_sentinel b.texts _ rfl rfl,
      applyTimeFallback_char u b.texts _ rfl]
    cases u <;> rfl
  refine ⟨by rw [key], by rw [key], by rw [key], by rw [key], by rw [key], by rw [key],
    ?_, by rw [key], by rw [key], processBlocks_filter_map u⟩
  intro he
  rw [key, fbEventPair_unresolved b.texts he]
  exact ⟨rfl, rfl⟩

/-- Witness for C5 at a concrete slotless block: the hypotheses hold by
computation, the positional pass resolves all four team/score fields, the
status keyword resolves the event, and the clock token resolves the time. -/
theorem extraction_sentinel_witness :
    (extractBlock true slotlessBlock).team1 = (fbTeam1 slotlessBlock.texts).getD "Unknown" ∧
    (extractBlock true slotlessBlock).team2 = (fbTeam2 slotlessBlock.texts).getD "Unknown" ∧
    extractBlock true slotlessBlock =
      { team1 := "TeamA", team2 := "TeamB", score1 := "2", score2 := "1",
        event := "Event X", stage := "Stage", time := "12:00",
        url := "https://www.vlr.gg/789/ta-vs-tb" } :=
  ⟨(extraction_sentinel_claim true slotlessBlock (by decide)).1,
   (extraction_sentinel_claim true slotlessBlock (by decide)).2.1,
   by decide⟩
